import Mathlib

/-
Shallow embedding of the STT project's three FastAPI servers
(src/python/server.py, src/python/server_dual.py, src/python/server_original.py),
restricted to the POST /transcribe request handlers and their helpers.

Modelling conventions:
- Python module globals that the handlers read (whisper_model, openai_client,
  MODEL_SIZE, PRIMARY_ENGINE, FALLBACK_ENGINE, ENABLE_DUAL_ENGINE) become
  fields of a server-state structure; a handle being loaded/configured is a
  Bool (Python truthiness of the global).
- The behaviour of the external backends on the staged file, and of the
  shutil.copyfileobj staging copy, is an oracle passed to the handler:
  an engine call either returns a transcription or raises (EngineResult.exn),
  and staging either succeeds or raises with some message.
- A raised Python exception crossing a function boundary is Except.error.
- The handler's observable effects are recorded in a Trace: whether the
  NamedTemporaryFile was created, whether it was unlinked by the cleanup
  block, and which backends were actually invoked.
- A response is either a JSON 200 body, an HTTPException (status, detail),
  or an exception that escapes the handler uncaught (Response.uncaughtError);
  the last models a plain Python error propagating out of the handler body.
-/

namespace STT

/-- Behaviour of one backend engine call on the staged audio file: the call
either returns a transcription (text, and for local whisper the optional
detected-language entry of the result dict) or raises with a message. -/
inductive EngineResult where
  | ok (text : String) (detected : Option String)
  | exn (msg : String)
deriving DecidableEq

/-- Returns true exactly on a successful engine behaviour. -/
def EngineResult.isOk : EngineResult → Bool
  | .ok _ _ => true
  | .exn _ => false

/-- Oracle for the externally-determined events of one request: whether the
shutil.copyfileobj staging copy raises (some msg) or succeeds (none), and the
behaviour of each backend if it is invoked on the staged file. -/
structure Oracle where
  staging : Option String
  localResult : EngineResult
  openaiResult : EngineResult
deriving DecidableEq

/-- Trace of a request handler's observable effects. -/
structure Trace where
  tempCreated : Bool
  tempDeleted : Bool
  localInvoked : Bool
  openaiInvoked : Bool
deriving DecidableEq

/-- Response of a request handler with JSON body type b. -/
inductive Response (b : Type) where
  | json (status : Nat) (body : b)
  | httpError (status : Nat) (detail : String)
  | uncaughtError (msg : String)
deriving DecidableEq

/-- Returns true exactly when the response is an exception escaping the
handler uncaught (neither a JSON body nor an HTTPException). -/
def Response.isUncaught {b : Type} : Response b → Bool
  | .uncaughtError _ => true
  | _ => false

/-- Python str.startswith, as a computation on the character lists (the
built-in String.startsWith does not reduce in kernel evaluation). -/
def strStartsWith (s pat : String) : Bool :=
  pat.data.isPrefixOf s.data

/-- Python str.strip() with no argument: remove leading and trailing
whitespace, as a computation on the character lists. -/
def strTrim (s : String) : String :=
  ⟨((s.data.dropWhile Char.isWhitespace).reverse.dropWhile Char.isWhitespace).reverse⟩

/-- The literal dict of server.py line 102 / server_dual.py line 168 /
server_original.py lines 77-81, read through dict.get with the key itself as
default: en-IN maps to en, hi-IN to hi, gu-IN to gu, anything else to itself. -/
def langMap (l : String) : String :=
  if l == "en-IN" then "en"
  else if l == "hi-IN" then "hi"
  else if l == "gu-IN" then "gu"
  else l

/-- server.py lines 100-103: the options dict carries a language entry
exactly when the language field is truthy (non-empty) and not the literal
string auto; the entry is the langMap image of the tag. -/
def normalizeLanguagePy (language : String) : Option String :=
  if language != "" && language != "auto" then some (langMap language) else none

/-- server_dual.py lines 166-169 (transcribe_with_local_whisper): the language
argument passed to the local whisper model, same computation as server.py. -/
def localWhisperLanguageArg (language : String) : Option String :=
  if language != "" && language != "auto" then some (langMap language) else none

/-- server.py line 136: the language argument the OpenAI call receives, which
is the options entry when that is truthy and None otherwise. -/
def openaiPyLanguageArg (language : String) : Option String :=
  match normalizeLanguagePy language with
  | some c => if c != "" then some c else none
  | none => none

/-- server_dual.py line 187 (transcribe_with_openai): the language argument the
OpenAI call receives is the raw tag unless it is the literal string auto; the
locale table is not applied here, and the empty tag is passed through. -/
def openaiDualLanguageArg (language : String) : Option String :=
  if language != "auto" then some language else none

/-- Result dict of a server_dual.py adapter, plus the engine_used and
primary_engine_error keys that transcribe_audio adds afterwards. -/
structure DualResult where
  text : String
  language_detected : String
  confidence : String
  engine : String
  model_size : Option String := none
  model : Option String := none
  engine_used : Option String := none
  primary_engine_error : Option String := none
deriving DecidableEq

/-- server_dual.py lines 164-179, transcribe_with_local_whisper: builds the
language options, calls the local model, and returns the result dict. There is
no exception handling here: a fault of the model call propagates to the
caller (Except.error). -/
def transcribe_with_local_whisper (MODEL_SIZE : String) (behaviour : EngineResult)
    (language : String) : Except String DualResult :=
  match localWhisperLanguageArg language, behaviour with
  | _, .exn m => .error m
  | _, .ok text detected =>
      .ok { text := strTrim text
            language_detected := detected.getD "unknown"
            confidence := "N/A"
            engine := "local_whisper"
            model_size := some MODEL_SIZE }

/-- server_dual.py lines 181-196, transcribe_with_openai: opens the staged
file and calls the OpenAI transcription API with openaiDualLanguageArg. There
is no exception handling here: a fault of the client call propagates to the
caller (Except.error). -/
def transcribe_with_openai (behaviour : EngineResult) (language : String) :
    Except String DualResult :=
  match openaiDualLanguageArg language, behaviour with
  | _, .exn m => .error m
  | _, .ok text _ =>
      .ok { text := strTrim text
            language_detected := if language != "auto" then language else "auto-detected"
            confidence := "N/A"
            engine := "openai_whisper"
            model := some "whisper-1" }

/-- Module globals of server_dual.py read by its transcribe_audio handler. -/
structure ServerDual where
  localModel : Bool
  openaiClient : Bool
  MODEL_SIZE : String
  PRIMARY_ENGINE : String
  FALLBACK_ENGINE : String
  ENABLE_DUAL_ENGINE : Bool
deriving DecidableEq

/-- Form fields of a POST /transcribe request to server_dual.py. -/
structure RequestDual where
  contentType : String
  language : String
  engine : String
deriving DecidableEq

/-- server_dual.py lines 100-112: engine resolution. In auto mode the primary
configured engine is taken if its handle is loaded, then the other direction,
then whichever handle is loaded, else HTTPException 503. Any other engine
field is accepted as-is with the suffix _whisper appended, without checking it
against the known engines. -/
def resolveEngineDual (st : ServerDual) (engine : String) : Except (Nat × String) String :=
  if engine == "auto" then
    if st.PRIMARY_ENGINE == "local_whisper" && st.localModel then .ok "local_whisper"
    else if st.PRIMARY_ENGINE == "openai_whisper" && st.openaiClient then .ok "openai_whisper"
    else if st.localModel then .ok "local_whisper"
    else if st.openaiClient then .ok "openai_whisper"
    else .error (503, "No transcription engines available")
  else .ok (engine ++ "_whisper")

/-- The dispatch pattern of server_dual.py lines 124-129 (and 142-147 with
the other message): call the named engine when its handle is loaded, else
raise an availability error. Also reports which backend was invoked
(local, openai). -/
def tryEngineDual (st : ServerDual) (orc : Oracle) (name language msgHead : String) :
    Except String DualResult × Bool × Bool :=
  if name == "local_whisper" && st.localModel then
    (transcribe_with_local_whisper st.MODEL_SIZE orc.localResult language, true, false)
  else if name == "openai_whisper" && st.openaiClient then
    (transcribe_with_openai orc.openaiResult language, false, true)
  else
    (.error (msgHead ++ name ++ " not available"), false, false)

/-- server_dual.py lines 88-162, the POST /transcribe handler.
Control flow mirrored from the source: content-type guard (400), engine
resolution (may raise 503 in auto mode only), NamedTemporaryFile creation,
staging copy, primary attempt, on failure the fallback attempt when
ENABLE_DUAL_ENGINE and FALLBACK_ENGINE are truthy, and the cleanup block.
When the staging copy raises, temp_path was never assigned (it is assigned
only after copyfileobj returns), so the cleanup block itself raises NameError
and the created temp file is not unlinked: the trace records
tempCreated = true, tempDeleted = false on that path. -/
def transcribe_audio_dual (st : ServerDual) (req : RequestDual) (orc : Oracle) :
    Response DualResult × Trace :=
  if !(strStartsWith req.contentType "audio/") then
    (.httpError 400 "File must be an audio file", ⟨false, false, false, false⟩)
  else
    match resolveEngineDual st req.engine with
    | .error e => (.httpError e.1 e.2, ⟨false, false, false, false⟩)
    | .ok selected_engine =>
      match orc.staging with
      | some _ =>
          (.uncaughtError "NameError: temp_path is not defined",
           ⟨true, false, false, false⟩)
      | none =>
        match tryEngineDual st orc selected_engine req.language "Engine " with
        | (.ok result, pLoc, pOai) =>
            (.json 200 { result with engine_used := some selected_engine },
             ⟨true, true, pLoc, pOai⟩)
        | (.error primary_error, pLoc, pOai) =>
          if st.ENABLE_DUAL_ENGINE && st.FALLBACK_ENGINE != "" then
            match tryEngineDual st orc st.FALLBACK_ENGINE req.language "Fallback engine " with
            | (.ok result, fLoc, fOai) =>
                (.json 200 { result with
                    engine_used := some (st.FALLBACK_ENGINE ++ " (fallback)")
                    primary_engine_error := some primary_error },
                 ⟨true, true, pLoc || fLoc, pOai || fOai⟩)
            | (.error fallback_error, fLoc, fOai) =>
                (.httpError 500 ("Both engines failed. Primary: " ++ primary_error
                    ++ ", Fallback: " ++ fallback_error),
                 ⟨true, true, pLoc || fLoc, pOai || fOai⟩)
          else
            (.httpError 500 ("Transcription failed: " ++ primary_error),
             ⟨true, true, pLoc, pOai⟩)

/-- Module globals of server.py read by its transcribe_audio handler. -/
structure ServerPy where
  whisperModel : Bool
  openaiClient : Bool
  MODEL_SIZE : String
deriving DecidableEq

/-- Form fields of a POST /transcribe request to server.py (filename is the
upload's name, echoed in the dual-mode body). -/
structure RequestPy where
  contentType : String
  language : String
  engines : String
  filename : String
deriving DecidableEq

/-- One value of the results dict of server.py: the per-engine entry, with
the status tag the code assigns (success, error, or not_configured) and the
keys present only on some entry shapes as Options. -/
structure Entry where
  text : String
  status : String
  engine : String
  language_detected : Option String := none
  confidence : Option String := none
  model_size : Option String := none
  model : Option String := none
deriving DecidableEq

/-- server.py lines 107-126: the local_whisper entry of the results dict,
present when engines is both or local and the model handle is loaded; a model
fault is caught and becomes an entry with status error. -/
def localEntryPy (st : ServerPy) (req : RequestPy) (orc : Oracle) :
    Option (String × Entry) :=
  if (req.engines == "both" || req.engines == "local") && st.whisperModel then
    some ("local_whisper",
      match orc.localResult with
      | .ok text detected =>
          { text := strTrim text
            status := "success"
            engine := "local_whisper"
            language_detected := some (detected.getD "unknown")
            confidence := some "N/A"
            model_size := some st.MODEL_SIZE }
      | .exn m =>
          { text := "Local Whisper failed: " ++ m
            status := "error"
            engine := "local_whisper" })
  else none

/-- server.py lines 128-159: the openai_whisper entry of the results dict.
With the client configured, a call fault is caught and becomes an entry with
status error; with the client absent the entry has status not_configured and
the client is never called. -/
def openaiEntryPy (st : ServerPy) (req : RequestPy) (orc : Oracle) :
    Option (String × Entry) :=
  if (req.engines == "both" || req.engines == "openai") && st.openaiClient then
    some ("openai_whisper",
      match orc.openaiResult with
      | .ok text _ =>
          { text := strTrim text
            status := "success"
            engine := "openai_whisper"
            language_detected := some ((normalizeLanguagePy req.language).getD "auto-detected")
            confidence := some "N/A"
            model := some "whisper-1" }
      | .exn m =>
          { text := "OpenAI Whisper failed: " ++ m
            status := "error"
            engine := "openai_whisper" })
  else if (req.engines == "both" || req.engines == "openai") && !st.openaiClient then
    some ("openai_whisper",
      { text := "OpenAI not configured - add API key to python/.env"
        status := "not_configured"
        engine := "openai_whisper" })
  else none

/-- True exactly when server.py invokes the local model for this request. -/
def localInvokedPy (st : ServerPy) (req : RequestPy) : Bool :=
  (req.engines == "both" || req.engines == "local") && st.whisperModel

/-- True exactly when server.py invokes the OpenAI client for this request. -/
def openaiInvokedPy (st : ServerPy) (req : RequestPy) : Bool :=
  (req.engines == "both" || req.engines == "openai") && st.openaiClient

/-- The results dict of server.py in insertion order: the local entry (if
any) then the openai entry (if any). -/
def resultsPy (st : ServerPy) (req : RequestPy) (orc : Oracle) :
    List (String × Entry) :=
  (localEntryPy st req orc).toList ++ (openaiEntryPy st req orc).toList

/-- JSON body shapes returned by server.py: the bare single-engine entry
(lines 162-165), or the dual dict with the results mapping and filename
(lines 168-172). -/
inductive BodyPy where
  | single (e : Entry)
  | dual (results : List (String × Entry)) (filename : String)
deriving DecidableEq

/-- server.py lines 161-172: single-engine requests whose entry exists return
that bare entry, everything else returns the dual body. Always HTTP 200. -/
def responsePy (st : ServerPy) (req : RequestPy) (orc : Oracle) : Response BodyPy :=
  if req.engines == "local" then
    match localEntryPy st req orc with
    | some ke => .json 200 (.single ke.2)
    | none => .json 200 (.dual (resultsPy st req orc) req.filename)
  else if req.engines == "openai" then
    match openaiEntryPy st req orc with
    | some ke => .json 200 (.single ke.2)
    | none => .json 200 (.dual (resultsPy st req orc) req.filename)
  else .json 200 (.dual (resultsPy st req orc) req.filename)

/-- server.py lines 77-176, the POST /transcribe handler: 503 guard on the
local model handle (before everything else), 400 content-type guard, temp
file creation and staging copy, per-engine dispatch, response selection, and
the cleanup block. As in server_dual.py, a fault of the staging copy leaves
temp_path unassigned, so the cleanup block raises NameError and the temp file
is not unlinked. -/
def transcribe_audio_py (st : ServerPy) (req : RequestPy) (orc : Oracle) :
    Response BodyPy × Trace :=
  if !st.whisperModel then
    (.httpError 503 "Whisper model not loaded", ⟨false, false, false, false⟩)
  else if !(strStartsWith req.contentType "audio/") then
    (.httpError 400 "File must be an audio file", ⟨false, false, false, false⟩)
  else
    match orc.staging with
    | some _ =>
        (.uncaughtError "NameError: temp_path is not defined",
         ⟨true, false, false, false⟩)
    | none =>
        (responsePy st req orc,
         ⟨true, true, localInvokedPy st req, openaiInvokedPy st req⟩)

/-- server_original.py lines 50-106, the POST /transcribe handler: 503 guard
on the model handle, 400 content-type guard, temp file creation and staging
copy, one local transcription whose fault is caught and re-raised as
HTTPException 500, and the cleanup block (with the same unassigned temp_path
behaviour on a staging fault). The engines field of the request is unused. -/
def transcribe_audio_original (modelLoaded : Bool) (MODEL_SIZE : String)
    (req : RequestPy) (orc : Oracle) : Response DualResult × Trace :=
  if !modelLoaded then
    (.httpError 503 "Whisper model not loaded", ⟨false, false, false, false⟩)
  else if !(strStartsWith req.contentType "audio/") then
    (.httpError 400 "File must be an audio file", ⟨false, false, false, false⟩)
  else
    match orc.staging with
    | some _ =>
        (.uncaughtError "NameError: temp_path is not defined",
         ⟨true, false, false, false⟩)
    | none =>
      match orc.localResult with
      | .ok text detected =>
          (.json 200 { text := strTrim text
                       language_detected := detected.getD "unknown"
                       confidence := "N/A"
                       engine := "whisper"
                       model_size := some MODEL_SIZE },
           ⟨true, true, true, false⟩)
      | .exn m =>
          (.httpError 500 ("Transcription failed: " ++ m), ⟨true, true, true, false⟩)

end STT

namespace STT

/-- Right cancellation for string append, used to reason about the
engine-name suffixing of server_dual.py line 112. -/
theorem strAppend_right_cancel (a b c : String) (h : a ++ c = b ++ c) : a = b := by
  cases a with
  | mk da =>
    cases b with
    | mk db =>
      cases c with
      | mk dc =>
        have hd : da ++ dc = db ++ dc := by
          have := congrArg String.data h
          simpa [String.data] using this
        exact congrArg String.mk (List.append_cancel_right hd)

/-- tryEngineDual returns an ok result only when the backend it dispatched to
actually behaved successfully. -/
theorem tryEngineDual_ok_isOk (st : ServerDual) (orc : Oracle) (n l mh : String)
    (r : DualResult) (a b : Bool)
    (h : tryEngineDual st orc n l mh = (.ok r, a, b)) :
    orc.localResult.isOk = true ∨ orc.openaiResult.isOk = true := by
  unfold tryEngineDual at h
  split at h
  · left
    unfold transcribe_with_local_whisper at h
    cases hb : orc.localResult <;> simp [hb, EngineResult.isOk] at h ⊢
  · split at h
    · right
      unfold transcribe_with_openai at h
      cases hb : orc.openaiResult <;> simp [hb, EngineResult.isOk] at h ⊢
    · simp at h

end STT

namespace STT

/-- C2: the spec's deletion guarantee is right and the code breaks it on one
path. In all three servers temp_path is assigned only after the
shutil.copyfileobj staging copy returns; when that copy raises, the cleanup
block itself raises NameError on the unassigned temp_path and the created
temp file is never unlinked. At the concrete failing input below (a staging
fault with the model loaded and a valid audio content type) each handler
reports tempCreated = true and tempDeleted = false, and the fault escapes the
handler uncaught. -/
theorem C2_staging_fault_leaks_temp_file :
    (transcribe_audio_py ⟨true, true, "base"⟩ ⟨"audio/wav", "auto", "both", "a.wav"⟩
        ⟨some "client disconnected", .ok "hi" (some "en"), .ok "hi" none⟩)
      = (.uncaughtError "NameError: temp_path is not defined",
         ⟨true, false, false, false⟩) ∧
    (transcribe_audio_dual ⟨true, true, "base", "local_whisper", "openai_whisper", true⟩
        ⟨"audio/wav", "auto", "auto"⟩
        ⟨some "client disconnected", .ok "hi" (some "en"), .ok "hi" none⟩)
      = (.uncaughtError "NameError: temp_path is not defined",
         ⟨true, false, false, false⟩) ∧
    (transcribe_audio_original true "base" ⟨"audio/wav", "auto", "both", "a.wav"⟩
        ⟨some "client disconnected", .ok "hi" (some "en"), .ok "hi" none⟩)
      = (.uncaughtError "NameError: temp_path is not defined",
         ⟨true, false, false, false⟩) := by
  refine ⟨?_, ?_, ?_⟩ <;> decide

/-- C10: server.py checks the local whisper model handle first of all: when it
is not loaded, every request is rejected with 503 before the content-type
check, before any temp file is created, and before any engine is invoked,
whatever the engines field says and whatever the OpenAI client state is. -/
theorem C10_model_guard_rejects_all (st : ServerPy) (req : RequestPy) (orc : Oracle)
    (h : st.whisperModel = false) :
    transcribe_audio_py st req orc
      = (.httpError 503 "Whisper model not loaded", ⟨false, false, false, false⟩) := by
  simp [transcribe_audio_py, h]

/-- C10 witness: a request for engines=openai with the OpenAI client
configured, a non-audio content type, and a model that is not loaded is
still answered 503 with no temp file and no engine call. -/
theorem C10_model_guard_rejects_all_witness :
    transcribe_audio_py ⟨false, true, "base"⟩ ⟨"text/plain", "auto", "openai", "a.wav"⟩
        ⟨none, .ok "x" none, .ok "x" none⟩
      = (.httpError 503 "Whisper model not loaded", ⟨false, false, false, false⟩) :=
  C10_model_guard_rejects_all ⟨false, true, "base"⟩ ⟨"text/plain", "auto", "openai", "a.wav"⟩
    ⟨none, .ok "x" none, .ok "x" none⟩ rfl

/-- C9 counterexample: the claim that the same language mapping is applied by
every engine adapter is false. server_dual.py's OpenAI adapter passes the raw
tag (line 187) instead of applying the locale table: on the concrete tag
en-IN it sends en-IN where the local adapter and server.py send en, and on the
empty tag it sends the empty string where the table maps it to null. -/
theorem C9_dual_openai_adapter_diverges :
    openaiDualLanguageArg "en-IN" = some "en-IN" ∧
    localWhisperLanguageArg "en-IN" = some "en" ∧
    openaiDualLanguageArg "en-IN" ≠ localWhisperLanguageArg "en-IN" ∧
    openaiDualLanguageArg "" = some "" ∧
    normalizeLanguagePy "" = none := by
  decide

/-- C9 as amended: the locale table is pure and total and is shared by
server.py (both of its engine calls) and by server_dual.py's local adapter:
en-IN, hi-IN, gu-IN map to en, hi, gu, any other tag passes through
unchanged, and auto or the empty tag map to null. server_dual.py's OpenAI
adapter does not apply the table: it passes the raw tag and maps only the
exact tag auto to null. -/
theorem C9_language_table :
    (∀ l, localWhisperLanguageArg l = normalizeLanguagePy l) ∧
    normalizeLanguagePy "en-IN" = some "en" ∧
    normalizeLanguagePy "hi-IN" = some "hi" ∧
    normalizeLanguagePy "gu-IN" = some "gu" ∧
    normalizeLanguagePy "fr" = some "fr" ∧
    normalizeLanguagePy "auto" = none ∧
    normalizeLanguagePy "" = none ∧
    (∀ l, l ≠ "en-IN" → l ≠ "hi-IN" → l ≠ "gu-IN" → l ≠ "" → l ≠ "auto" →
      normalizeLanguagePy l = some l) ∧
    (∀ l, openaiPyLanguageArg l = normalizeLanguagePy l) ∧
    (∀ l, openaiDualLanguageArg l = if l == "auto" then none else some l) := by
  refine ⟨fun l => rfl, by decide, by decide, by decide, by decide, by decide, by decide,
    ?_, ?_, fun l => by unfold openaiDualLanguageArg; by_cases h : l = "auto" <;> simp [h, bne]⟩
  · intro l h1 h2 h3 h4 h5
    have b1 : (l == "en-IN") = false := beq_eq_false_iff_ne.mpr h1
    have b2 : (l == "hi-IN") = false := beq_eq_false_iff_ne.mpr h2
    have b3 : (l == "gu-IN") = false := beq_eq_false_iff_ne.mpr h3
    have b4 : (l == "") = false := beq_eq_false_iff_ne.mpr h4
    have b5 : (l == "auto") = false := beq_eq_false_iff_ne.mpr h5
    simp [normalizeLanguagePy, langMap, b1, b2, b3, b4, b5, bne]
  · intro l
    unfold openaiPyLanguageArg normalizeLanguagePy langMap
    by_cases h4 : l = ""
    · simp [h4, bne]
    · by_cases h5 : l = "auto"
      · simp [h5, bne]
      · have b4 : (l == "") = false := beq_eq_false_iff_ne.mpr h4
        have b5 : (l == "auto") = false := beq_eq_false_iff_ne.mpr h5
        simp only [b4, b5, bne]
        by_cases h1 : l = "en-IN" <;> by_cases h2 : l = "hi-IN" <;> by_cases h3 : l = "gu-IN" <;>
          simp_all [beq_eq_false_iff_ne.mpr, bne]

/-- C9 witness: the passthrough component of the amended table at the
concrete unknown tag pt-BR. -/
theorem C9_language_table_witness :
    normalizeLanguagePy "pt-BR" = some "pt-BR" :=
  C9_language_table.2.2.2.2.2.2.2.1 "pt-BR" (by decide) (by decide) (by decide)
    (by decide) (by decide)

end STT

namespace STT

/-- C1 counterexample: server_dual.py's adapters have no exception handling,
so an engine fault is raised uncaught across the adapter boundary (modelled as
Except.error) instead of being returned as a failure outcome; no errorKind
taxonomy exists anywhere in the code. Concretely, a network fault of the
OpenAI call and a model fault of the local call each leave
transcribe_with_openai / transcribe_with_local_whisper as a raised
exception. -/
theorem C1_adapter_fault_crosses_boundary :
    transcribe_with_openai (.exn "connection reset by peer") "auto"
      = .error "connection reset by peer" ∧
    transcribe_with_local_whisper "base" (.exn "CUDA out of memory") "en-IN"
      = .error "CUDA out of memory" :=
  ⟨rfl, rfl⟩

/-- C1 as amended: engine faults are contained at the request-handler level,
not at the adapter boundary, and carry no errorKind. Whenever the staging
copy succeeds, none of the three handlers lets an engine fault escape
uncaught: server_dual.py catches the adapter exceptions and converts them to
a fallback attempt, a 200 result, or an HTTPException; server.py catches
each engine fault into a result entry tagged with status error; and
server_original.py converts the fault to HTTPException 500. -/
theorem C1_engine_faults_contained (orc : Oracle) (h : orc.staging = none) :
    (∀ st req, ((transcribe_audio_dual st req orc).1).isUncaught = false) ∧
    (∀ st req, ((transcribe_audio_py st req orc).1).isUncaught = false) ∧
    (∀ loaded size req,
      ((transcribe_audio_original loaded size req orc).1).isUncaught = false) := by
  refine ⟨fun st req => ?_, fun st req => ?_, fun loaded size req => ?_⟩
  · simp only [transcribe_audio_dual, h]
    repeat' split
    all_goals rfl
  · simp only [transcribe_audio_py, responsePy, h]
    repeat' split
    all_goals rfl
  · simp only [transcribe_audio_original, h]
    repeat' split
    all_goals rfl

/-- C1 witness: at a concrete request in which both engines fault, the
server_dual.py handler still returns a caught response. -/
theorem C1_engine_faults_contained_witness :
    ((transcribe_audio_dual ⟨true, true, "base", "local_whisper", "openai_whisper", true⟩
        ⟨"audio/wav", "auto", "auto"⟩ ⟨none, .exn "boom", .exn "crash"⟩).1).isUncaught
      = false :=
  (C1_engine_faults_contained ⟨none, .exn "boom", .exn "crash"⟩ rfl).1
    ⟨true, true, "base", "local_whisper", "openai_whisper", true⟩
    ⟨"audio/wav", "auto", "auto"⟩

end STT

namespace STT

/-- C3 counterexample: with no engine available at all (neither handle
loaded) but an explicitly named engine, server_dual.py does not return 503
and does create the staged temp file: the request reaches staging
(tempCreated = true) and ends as HTTPException 500 after the internal
availability errors of the primary and fallback dispatches. -/
theorem C3_explicit_engine_stages_despite_no_engines :
    transcribe_audio_dual ⟨false, false, "base", "local_whisper", "openai_whisper", true⟩
        ⟨"audio/wav", "auto", "local"⟩ ⟨none, .exn "unused", .exn "unused"⟩
      = (.httpError 500 ("Both engines failed. Primary: Engine local_whisper not available, "
            ++ "Fallback: Fallback engine openai_whisper not available"),
         ⟨true, true, false, false⟩) := by
  decide

/-- C3 as amended: the fail-fast-before-staging guarantee holds for
server.py (whose guard is the local model handle) and for server_dual.py in
auto mode; but in server_dual.py a request naming an engine explicitly is
staged even with no engine available, and then fails with 500, not 503, with
no engine invoked. -/
theorem C3_no_engine_fail_fast (st : ServerDual) (stp : ServerPy)
    (req : RequestDual) (reqp : RequestPy) (orc : Oracle)
    (hl : st.localModel = false) (ho : st.openaiClient = false)
    (ha : req.engine = "auto")
    (hct : strStartsWith req.contentType "audio/" = true)
    (hp : stp.whisperModel = false) :
    transcribe_audio_dual st req orc
      = (.httpError 503 "No transcription engines available",
         ⟨false, false, false, false⟩) ∧
    transcribe_audio_py stp reqp orc
      = (.httpError 503 "Whisper model not loaded", ⟨false, false, false, false⟩) ∧
    ∀ req2 : RequestDual, strStartsWith req2.contentType "audio/" = true →
      (req2.engine == "auto") = false → orc.staging = none →
      ∃ d, transcribe_audio_dual st req2 orc
        = (.httpError 500 d, ⟨true, true, false, false⟩) := by
  refine ⟨?_, ?_, ?_⟩
  · simp [transcribe_audio_dual, resolveEngineDual, hl, ho, ha, hct]
  · simp [transcribe_audio_py, hp]
  · intro req2 hct2 hne hstage
    simp [transcribe_audio_dual, resolveEngineDual, tryEngineDual,
      hl, ho, hne, hct2, hstage]
    split
    · exact ⟨_, rfl⟩
    · exact ⟨_, rfl⟩

/-- C3 witness: the amended statement at a concrete state with no engines, an
auto-mode request, a server.py state with the model unloaded, and a concrete
explicitly-named-engine request. -/
theorem C3_no_engine_fail_fast_witness :
    transcribe_audio_dual ⟨false, false, "base", "local_whisper", "openai_whisper", true⟩
        ⟨"audio/wav", "auto", "auto"⟩ ⟨none, .exn "u", .exn "u"⟩
      = (.httpError 503 "No transcription engines available",
         ⟨false, false, false, false⟩) ∧
    transcribe_audio_py ⟨false, false, "base"⟩ ⟨"audio/wav", "auto", "both", "a.wav"⟩
        ⟨none, .exn "u", .exn "u"⟩
      = (.httpError 503 "Whisper model not loaded", ⟨false, false, false, false⟩) ∧
    ∃ d, transcribe_audio_dual ⟨false, false, "base", "local_whisper", "openai_whisper", true⟩
        ⟨"audio/wav", "auto", "local"⟩ ⟨none, .exn "u", .exn "u"⟩
      = (.httpError 500 d, ⟨true, true, false, false⟩) := by
  have h := C3_no_engine_fail_fast
    ⟨false, false, "base", "local_whisper", "openai_whisper", true⟩ ⟨false, false, "base"⟩
    ⟨"audio/wav", "auto", "auto"⟩ ⟨"audio/wav", "auto", "both", "a.wav"⟩
    ⟨none, .exn "u", .exn "u"⟩ rfl rfl rfl (by decide) rfl
  exact ⟨h.1, h.2.1, h.2.2 ⟨"audio/wav", "auto", "local"⟩ (by decide) rfl rfl⟩

end STT

namespace STT

/-- C4 counterexample: in server.py a single-engine request whose engine
fails is answered with HTTP 200 whose body is the error-tagged entry, not
with an HTTP error: at the concrete input below (engines=local, model loaded,
model call raising) the handler returns status 200 carrying
status = error. -/
theorem C4_single_failure_returns_200 :
    transcribe_audio_py ⟨true, false, "base"⟩ ⟨"audio/wav", "auto", "local", "a.wav"⟩
        ⟨none, .exn "CUDA out of memory", .ok "x" none⟩
      = (.json 200 (.single { text := "Local Whisper failed: CUDA out of memory",
                              status := "error", engine := "local_whisper" }),
         ⟨true, true, true, false⟩) := by
  decide

/-- C4 as amended: on a single-engine failure server.py returns 200 whose
body is the bare entry tagged status error with the failure message in its
text; server_dual.py, by contrast, never returns a 200 carrying an error:
any JSON response it produces comes from an engine whose behaviour actually
succeeded. -/
theorem C4_single_failure_shape (st : ServerPy) (req : RequestPy) (orc : Oracle) (m : String)
    (hm : st.whisperModel = true)
    (hct : strStartsWith req.contentType "audio/" = true)
    (he : req.engines = "local")
    (hres : orc.localResult = .exn m)
    (hstage : orc.staging = none) :
    (transcribe_audio_py st req orc).1
      = .json 200 (.single { text := "Local Whisper failed: " ++ m,
                             status := "error", engine := "local_whisper" }) ∧
    ∀ (std : ServerDual) (reqd : RequestDual) (orc2 : Oracle) (s : Nat) (r : DualResult),
      (transcribe_audio_dual std reqd orc2).1 = .json s r →
      orc2.localResult.isOk = true ∨ orc2.openaiResult.isOk = true := by
  constructor
  · simp [transcribe_audio_py, responsePy, localEntryPy, hm, hct, he, hres, hstage]
  · intro std reqd orc2 s r hj
    unfold transcribe_audio_dual at hj
    split at hj
    · simp [Response.json] at hj
    · split at hj
      · simp at hj
      · split at hj
        · simp at hj
        · split at hj
          · rename_i heq
            exact tryEngineDual_ok_isOk _ _ _ _ _ _ _ _ heq
          · split at hj
            · split at hj
              · rename_i heq
                exact tryEngineDual_ok_isOk _ _ _ _ _ _ _ _ heq
              · simp at hj
            · simp at hj

/-- C4 witness: the amended statement at the concrete single-engine failure
of the counterexample, and a concrete dual-server JSON response traced back
to the successful engine behaviour. -/
theorem C4_single_failure_shape_witness :
    (transcribe_audio_py ⟨true, false, "base"⟩ ⟨"audio/wav", "auto", "local", "a.wav"⟩
        ⟨none, .exn "boom", .ok "x" none⟩).1
      = .json 200 (.single { text := "Local Whisper failed: boom",
                             status := "error", engine := "local_whisper" }) :=
  (C4_single_failure_shape ⟨true, false, "base"⟩ ⟨"audio/wav", "auto", "local", "a.wav"⟩
    ⟨none, .exn "boom", .ok "x" none⟩ "boom" rfl (by decide) rfl rfl rfl).1

end STT

namespace STT

/-- C5 counterexample: a request explicitly selecting the local engine while
that engine is unavailable is not answered 503 and does invoke the other
engine: with the default configuration (dual mode on, fallback
openai_whisper) server_dual.py falls back to OpenAI and returns its result
as a 200, with the trace showing the OpenAI call (openaiInvoked = true). -/
theorem C5_single_unavailable_invokes_other_engine :
    transcribe_audio_dual ⟨false, true, "base", "local_whisper", "openai_whisper", true⟩
        ⟨"audio/wav", "auto", "local"⟩ ⟨none, .exn "unused", .ok "hello there" none⟩
      = (.json 200 { text := "hello there", language_detected := "auto-detected",
                     confidence := "N/A", engine := "openai_whisper",
                     model := some "whisper-1",
                     engine_used := some "openai_whisper (fallback)",
                     primary_engine_error := some "Engine local_whisper not available" },
         ⟨true, true, false, true⟩) := by
  decide

/-- C5 as amended: when an explicitly selected engine is unavailable
server_dual.py raises an internal availability error and, whenever dual mode
is enabled and a fallback engine is configured, attempts the fallback —
fallback is not restricted to auto mode. With the local engine unavailable,
the OpenAI client configured, and the default fallback configuration, the
OpenAI engine is invoked and the response is never a 503. -/
theorem C5_explicit_unavailable_falls_back (st : ServerDual) (req : RequestDual) (orc : Oracle)
    (hl : st.localModel = false) (ho : st.openaiClient = true)
    (hen : st.ENABLE_DUAL_ENGINE = true) (hfb : st.FALLBACK_ENGINE = "openai_whisper")
    (he : req.engine = "local")
    (hct : strStartsWith req.contentType "audio/" = true)
    (hstage : orc.staging = none) :
    (transcribe_audio_dual st req orc).2.openaiInvoked = true ∧
    ∀ d, (transcribe_audio_dual st req orc).1 ≠ .httpError 503 d := by
  unfold transcribe_audio_dual resolveEngineDual tryEngineDual
  simp [hl, ho, hen, hfb, he, hct, hstage]
  cases horc : orc.openaiResult with
  | ok t d => simp [transcribe_with_openai, horc]
  | exn m => simp [transcribe_with_openai, horc]

/-- C5 witness: the amended statement at the counterexample's concrete
input. -/
theorem C5_explicit_unavailable_falls_back_witness :
    (transcribe_audio_dual ⟨false, true, "base", "local_whisper", "openai_whisper", true⟩
        ⟨"audio/wav", "auto", "local"⟩
        ⟨none, .exn "u", .ok "hello there" none⟩).2.openaiInvoked = true :=
  (C5_explicit_unavailable_falls_back
    ⟨false, true, "base", "local_whisper", "openai_whisper", true⟩
    ⟨"audio/wav", "auto", "local"⟩ ⟨none, .exn "u", .ok "hello there" none⟩
    rfl rfl rfl rfl rfl (by decide) rfl).1

end STT

namespace STT

/-- C6 counterexample: a request naming the unknown engine id bogus is not
rejected with INVALID_INPUT and work is performed: server_dual.py stages the
payload (tempCreated = true), fails the primary dispatch internally, invokes
the fallback OpenAI engine (openaiInvoked = true), and answers 200 with the
fallback result. -/
theorem C6_unknown_engine_not_rejected :
    transcribe_audio_dual ⟨true, true, "base", "local_whisper", "openai_whisper", true⟩
        ⟨"audio/wav", "auto", "bogus"⟩ ⟨none, .ok "hi" (some "en"), .ok "hello" none⟩
      = (.json 200 { text := "hello", language_detected := "auto-detected",
                     confidence := "N/A", engine := "openai_whisper",
                     model := some "whisper-1",
                     engine_used := some "openai_whisper (fallback)",
                     primary_engine_error := some "Engine bogus_whisper not available" },
         ⟨true, true, false, true⟩) := by
  decide

/-- C6 as amended: server_dual.py never validates the engine id against the
registry. For any engine field other than auto, local and openai, the
payload is staged, and the response is never a 400: the unknown id only
surfaces later as an internal availability error of the primary dispatch
(followed by the fallback policy). -/
theorem C6_unknown_engine_still_staged (st : ServerDual) (req : RequestDual) (orc : Oracle)
    (hct : strStartsWith req.contentType "audio/" = true)
    (hna : req.engine ≠ "auto") (hnl : req.engine ≠ "local") (hno : req.engine ≠ "openai")
    (hstage : orc.staging = none) :
    (transcribe_audio_dual st req orc).2.tempCreated = true ∧
    ∀ d, (transcribe_audio_dual st req orc).1 ≠ .httpError 400 d := by
  have ba : (req.engine == "auto") = false := beq_eq_false_iff_ne.mpr hna
  have bl : (req.engine ++ "_whisper" == "local_whisper") = false := by
    refine beq_eq_false_iff_ne.mpr fun hc => hnl ?_
    have : req.engine ++ "_whisper" = "local" ++ "_whisper" := hc
    exact strAppend_right_cancel _ _ _ this
  have bo : (req.engine ++ "_whisper" == "openai_whisper") = false := by
    refine beq_eq_false_iff_ne.mpr fun hc => hno ?_
    have : req.engine ++ "_whisper" = "openai" ++ "_whisper" := hc
    exact strAppend_right_cancel _ _ _ this
  unfold transcribe_audio_dual resolveEngineDual tryEngineDual
  simp [hct, ba, bl, bo, hstage]
  split
  · split <;> simp
  · simp

/-- C6 witness: the amended statement at the concrete unknown id bogus. -/
theorem C6_unknown_engine_still_staged_witness :
    (transcribe_audio_dual ⟨true, true, "base", "local_whisper", "openai_whisper", true⟩
        ⟨"audio/wav", "auto", "bogus"⟩
        ⟨none, .ok "hi" (some "en"), .ok "hello" none⟩).2.tempCreated = true :=
  (C6_unknown_engine_still_staged
    ⟨true, true, "base", "local_whisper", "openai_whisper", true⟩
    ⟨"audio/wav", "auto", "bogus"⟩ ⟨none, .ok "hi" (some "en"), .ok "hello" none⟩
    (by decide) (by decide) (by decide) (by decide) rfl).1

end STT

namespace STT

/-- C7 counterexample: with both engines requested and the OpenAI client not
configured, the results mapping of server.py carries an entry whose status is
not_configured — a third status value beside success and error (and the code
never uses the literal tag failure at all). -/
theorem C7_not_configured_status_appears :
    (transcribe_audio_py ⟨true, false, "base"⟩ ⟨"audio/wav", "auto", "both", "a.wav"⟩
        ⟨none, .ok "hi" (some "en"), .exn "unused"⟩).1
      = .json 200 (.dual
          [("local_whisper",
            { text := "hi", status := "success", engine := "local_whisper",
              language_detected := some "en", confidence := some "N/A",
              model_size := some "base" }),
           ("openai_whisper",
            { text := "OpenAI not configured - add API key to python/.env",
              status := "not_configured", engine := "openai_whisper" })] "a.wav") ∧
    ("not_configured" ≠ "success" ∧ "not_configured" ≠ "error"
      ∧ "not_configured" ≠ "failure") := by
  refine ⟨by decide, by decide, by decide, by decide⟩

/-- C7 as amended: with engines=both (the all mode of server.py) the results
mapping always has exactly the two configured engines as keys, in order, and
every entry's status is success, error, or not_configured — the last
appearing exactly when the OpenAI client is absent. -/
theorem C7_both_mode_entries (st : ServerPy) (req : RequestPy) (orc : Oracle)
    (hm : st.whisperModel = true)
    (hct : strStartsWith req.contentType "audio/" = true)
    (he : req.engines = "both")
    (hstage : orc.staging = none) :
    (transcribe_audio_py st req orc).1
      = .json 200 (.dual (resultsPy st req orc) req.filename) ∧
    (resultsPy st req orc).map Prod.fst = ["local_whisper", "openai_whisper"] ∧
    (∀ p ∈ resultsPy st req orc,
      p.2.status = "success" ∨ p.2.status = "error" ∨ p.2.status = "not_configured") ∧
    ((∃ p ∈ resultsPy st req orc, p.2.status = "not_configured")
      ↔ st.openaiClient = false) := by
  refine ⟨?_, ?_, ?_, ?_⟩
  · simp [transcribe_audio_py, responsePy, hm, hct, he, hstage]
  · cases hoc : st.openaiClient <;> cases hl : orc.localResult <;> cases ho : orc.openaiResult <;>
      simp [resultsPy, localEntryPy, openaiEntryPy, he, hm, hoc, hl, ho]
  · intro p hp
    cases hoc : st.openaiClient <;> cases hl : orc.localResult <;> cases ho : orc.openaiResult <;>
      simp [resultsPy, localEntryPy, openaiEntryPy, he, hm, hoc, hl, ho] at hp <;>
      rcases hp with h | h <;> subst h <;> simp
  · cases hoc : st.openaiClient <;> cases hl : orc.localResult <;> cases ho : orc.openaiResult <;>
      simp [resultsPy, localEntryPy, openaiEntryPy, he, hm, hoc, hl, ho]

/-- C7 witness: the amended statement at the counterexample's concrete
input. -/
theorem C7_both_mode_entries_witness :
    (resultsPy ⟨true, false, "base"⟩ ⟨"audio/wav", "auto", "both", "a.wav"⟩
        ⟨none, .ok "hi" (some "en"), .exn "unused"⟩).map Prod.fst
      = ["local_whisper", "openai_whisper"] :=
  (C7_both_mode_entries ⟨true, false, "base"⟩ ⟨"audio/wav", "auto", "both", "a.wav"⟩
    ⟨none, .ok "hi" (some "en"), .exn "unused"⟩ rfl (by decide) rfl rfl).2.1

end STT

namespace STT

/-- C8 counterexample: the primary engine fails and a fallback engine is both
configured (openai_whisper) and available (client configured), yet because
ENABLE_DUAL_ENGINE is false the response carries no fallback marking and no
primaryError: it is HTTPException 500 and the fallback engine is never
invoked. The claim as stated omits the dual-mode enable condition. -/
theorem C8_fallback_available_but_disabled :
    transcribe_audio_dual ⟨true, true, "base", "local_whisper", "openai_whisper", false⟩
        ⟨"audio/wav", "auto", "auto"⟩ ⟨none, .exn "model crashed", .ok "hello" none⟩
      = (.httpError 500 "Transcription failed: model crashed",
         ⟨true, true, true, false⟩) := by
  decide

/-- C8 as amended: with dual mode enabled, when the auto-mode primary
(local) fails with message m and the configured fallback openai_whisper is
available and succeeds, the 200 body marks the engine used as
openai_whisper (fallback) and carries primary_engine_error equal to m (in
particular non-empty whenever the failure message is non-empty). -/
theorem C8_fallback_metadata (st : ServerDual) (req : RequestDual) (orc : Oracle)
    (m t : String) (dl : Option String)
    (hct : strStartsWith req.contentType "audio/" = true)
    (ha : req.engine = "auto")
    (hprim : st.PRIMARY_ENGINE = "local_whisper") (hl : st.localModel = true)
    (hfail : orc.localResult = .exn m)
    (hen : st.ENABLE_DUAL_ENGINE = true) (hfb : st.FALLBACK_ENGINE = "openai_whisper")
    (hoc : st.openaiClient = true) (hok : orc.openaiResult = .ok t dl)
    (hstage : orc.staging = none) :
    (transcribe_audio_dual st req orc).1
      = .json 200 { text := strTrim t,
                    language_detected :=
                      if req.language != "auto" then req.language else "auto-detected",
                    confidence := "N/A", engine := "openai_whisper",
                    model := some "whisper-1",
                    engine_used := some "openai_whisper (fallback)",
                    primary_engine_error := some m } := by
  unfold transcribe_audio_dual resolveEngineDual tryEngineDual
    transcribe_with_local_whisper transcribe_with_openai
  simp [hct, ha, hprim, hl, hfail, hen, hfb, hoc, hok, hstage]

/-- C8 witness: the amended statement at a concrete failing primary and
succeeding fallback. -/
theorem C8_fallback_metadata_witness :
    (transcribe_audio_dual ⟨true, true, "base", "local_whisper", "openai_whisper", true⟩
        ⟨"audio/wav", "en-IN", "auto"⟩
        ⟨none, .exn "model crashed", .ok " hello " none⟩).1
      = .json 200 { text := "hello",
                    language_detected := "en-IN",
                    confidence := "N/A", engine := "openai_whisper",
                    model := some "whisper-1",
                    engine_used := some "openai_whisper (fallback)",
                    primary_engine_error := some "model crashed" } := by
  have h := C8_fallback_metadata
    ⟨true, true, "base", "local_whisper", "openai_whisper", true⟩
    ⟨"audio/wav", "en-IN", "auto"⟩ ⟨none, .exn "model crashed", .ok " hello " none⟩
    "model crashed" " hello " none (by decide) rfl rfl rfl rfl rfl rfl rfl rfl rfl
  simpa using h

end STT
